import Mathlib

/-!
Shallow embedding of the Basis payment-verification and witnessing core
(`src/middleware/x402.ts`, `src/middleware/x402-mock.ts`, `src/tools/witness.ts`,
`src/tools/witness-cache.ts`, `src/index.ts`), together with theorems settling
the specification's claims about it.

The Replay Store (Cloudflare KV) is modelled as an association list from keys to
(value, ttlSeconds).  External effects — KV reads/writes/deletes and calls to
the chain verifier — are recorded in an explicit trace so that statements such
as "no put or delete is performed" are about the program, not about the model's
bookkeeping.  Fallibility of individual KV operations (a thrown exception in
the TypeScript) is modelled by a record of fault flags.
-/

namespace Basis

/-! ### String primitives

The JavaScript string operations the source uses (`startsWith`, `length`,
`toLowerCase`, concatenation) are modelled on the underlying character lists
(`String.data`), which the all-ASCII inputs of this program make faithful, and
which are executable by kernel reduction. -/

/-- JS `s.startsWith(p)`. -/
def jsStartsWith (s p : String) : Bool := p.data.isPrefixOf s.data

/-- JS `s.length`. -/
def jsLength (s : String) : Nat := s.data.length

/-- Lowercasing of one character (ASCII). -/
def charLower (c : Char) : Char :=
  if 'A' ≤ c && c ≤ 'Z' then Char.ofNat (c.toNat + 32) else c

/-- JS `s.toLowerCase()`, as a character list. -/
def lowerStr (s : String) : List Char := s.data.map charLower

/-- JS `a.toLowerCase() === b.toLowerCase()`. -/
def lowerEqStr (a b : String) : Bool := lowerStr a == lowerStr b

/-- String concatenation (JS `+` / template literal). -/
def jsConcat (a b : String) : String := ⟨a.data ++ b.data⟩

/-- Replay Store state: key ↦ (value, ttlSeconds).  Mirrors the KV namespace
`BASIS_KV`, whose values are the literal strings "pending" / "used". -/
abbrev KV := List (String × String × Nat)

/-- KV `kv.get(key)` — first binding for the key, value only. -/
def kvGet (s : KV) (k : String) : Option String :=
  match s.find? (fun e => e.1 == k) with
  | some e => some e.2.1
  | none => none

/-- TTL recorded for a key (model-level accessor for stating TTL claims). -/
def kvGetTTL (s : KV) (k : String) : Option Nat :=
  match s.find? (fun e => e.1 == k) with
  | some e => some e.2.2
  | none => none

/-- KV `kv.put(key, value, expirationTtl)` — overwrites any previous binding. -/
def kvPut (s : KV) (k v : String) (ttl : Nat) : KV :=
  (k, v, ttl) :: s.filter (fun e => e.1 != k)

/-- KV `kv.delete(key)`. -/
def kvDelete (s : KV) (k : String) : KV :=
  s.filter (fun e => e.1 != k)

/-- TTL expiry: the store auto-evicts a key whose TTL has elapsed.  This is an
action of the store itself, never of the gate. -/
def kvExpire (s : KV) (k : String) : KV :=
  kvDelete s k

/-- One external effect of a gate execution, in program order. -/
inductive GateOp
  | get (k : String)
  | put (k v : String) (ttl : Nat)
  | del (k : String)
  | verifyCall (tx recipient : String)
  deriving DecidableEq, Repr

/-- Outcome of the chain verifier as consumed by the gate
(`verifyPayment` returns `valid: Bool` plus `walletAddress?`/`error?`). -/
inductive VerifyOutcome
  | valid (wallet : String)
  | invalid (reason : String)
  deriving DecidableEq, Repr

/-- Result of a gate execution.  `authorized` means `next()` was invoked, i.e.
control passed to the downstream handler with the payer attached. -/
inductive GateResult
  | paymentRequired
  | configError (msg : String)
  | internalError (msg : String)
  | replayDetected
  | verificationFailed (reason : String)
  | authorized (wallet tx : String)
  deriving DecidableEq, Repr

/-- HTTP status produced for each gate result (`c.json(..., status)`). -/
def httpStatus : GateResult → Nat
  | .paymentRequired => 402
  | .configError _ => 500
  | .internalError _ => 500
  | .replayDetected => 402
  | .verificationFailed _ => 402
  | .authorized _ _ => 200

/-- The `error` field of the JSON rejection body for each gate result. -/
def errorLabel : GateResult → String
  | .paymentRequired => "Payment Required"
  | .configError _ => "Configuration Error"
  | .internalError _ => "Internal Server Error"
  | .replayDetected => "Payment Reuse Detected"
  | .verificationFailed _ => "Payment Verification Failed"
  | .authorized _ _ => ""

/-- Environment bindings consulted by the production gate. -/
structure GateEnv where
  walletAddress : Option String
  kvConfigured : Bool
  deriving DecidableEq, Repr

/-- Which KV operations of a single gate execution throw
(`try`/`catch` blocks in `x402`). -/
structure KVFaults where
  getFails : Bool
  putPendingFails : Bool
  deleteFails : Bool
  putUsedFails : Bool
  deriving DecidableEq, Repr

/-- Fault-free behaviour. -/
def noFaults : KVFaults := ⟨false, false, false, false⟩

/-- Result, post-state and effect trace of one gate execution. -/
structure GateOutcome where
  result : GateResult
  store : KV
  trace : List GateOp
  deriving DecidableEq, Repr

/-- Constant `PENDING_TTL = 300` — 5 minutes, the pending-lock expiration. -/
def PENDING_TTL : Nat := 300

/-- Constant `REPLAY_TTL = 86400` — 24 hours, the used-record expiration. -/
def REPLAY_TTL : Nat := 86400

/-- The production `x402` middleware (`src/middleware/x402.ts`), with the chain
verifier abstracted as a parameter (the source calls `verifyPayment`, embedded
separately below).  Faithful transcription of the control flow:
format check, env checks, replay check + pending lock in one `try`, chain
verification, delete-on-failure (best effort), used-write (fail closed). -/
def x402Run (header : Option String) (env : GateEnv) (faults : KVFaults)
    (verify : String → String → VerifyOutcome) (store : KV) : GateOutcome :=
  match header with
  | none => ⟨.paymentRequired, store, []⟩
  | some h =>
    if !(jsStartsWith h "0x" && jsLength h == 66) then
      ⟨.paymentRequired, store, []⟩
    else
      match env.walletAddress with
      | none => ⟨.configError "BASIS_WALLET_ADDRESS not configured", store, []⟩
      | some wallet =>
        if !env.kvConfigured then
          ⟨.configError "BASIS_KV not configured", store, []⟩
        else if faults.getFails then
          ⟨.internalError "Failed to process payment verification", store, [.get h]⟩
        else
          match kvGet store h with
          | some _ => ⟨.replayDetected, store, [.get h]⟩
          | none =>
            if faults.putPendingFails then
              ⟨.internalError "Failed to process payment verification", store,
                [.get h, .put h "pending" PENDING_TTL]⟩
            else
              let store1 := kvPut store h "pending" PENDING_TTL
              match verify h wallet with
              | .invalid reason =>
                let store2 := if faults.deleteFails then store1 else kvDelete store1 h
                ⟨.verificationFailed reason, store2,
                  [.get h, .put h "pending" PENDING_TTL, .verifyCall h wallet, .del h]⟩
              | .valid w =>
                if faults.putUsedFails then
                  ⟨.internalError
                      "Payment verified but failed to record usage. Please contact support.",
                    store1,
                    [.get h, .put h "pending" PENDING_TTL, .verifyCall h wallet,
                      .put h "used" REPLAY_TTL]⟩
                else
                  ⟨.authorized w h, kvPut store1 h "used" REPLAY_TTL,
                    [.get h, .put h "pending" PENDING_TTL, .verifyCall h wallet,
                      .put h "used" REPLAY_TTL]⟩

/-! ### Chain verifier (`verifyPayment` in `src/middleware/x402.ts`) -/

/-- Constant `USDC_BASE_ADDRESS`. -/
def USDC_BASE_ADDRESS : String := "0x833589fCD6eDb6E08f4c7C32D4f71b54bdA02913"

/-- Constant `MIN_PAYMENT_AMOUNT = 1000n` (0.001 USDC, 6 decimals). -/
def MIN_PAYMENT_AMOUNT : Nat := 1000

/-- A decoded ERC20 `Transfer(from, to, value)` event.  `fromAddr`/`toAddr`
model the `from`/`to` fields; `value` (a `bigint` in the source, always a
non-negative token amount) is a `Nat`. -/
structure TransferEvent where
  fromAddr : String
  toAddr : String
  value : Nat
  deriving DecidableEq, Repr

/-- One receipt log.  `decoded` is the outcome of viem's `decodeEventLog`
against the `Transfer` ABI (external library behaviour, supplied as data):
`none` when decoding throws or the event is not `Transfer`. -/
structure EthLog where
  address : String
  decoded : Option TransferEvent
  deriving DecidableEq, Repr

/-- Function `decodeUSDCLog`: reject logs not emitted by the USDC contract
(case-insensitive address comparison), otherwise return the decoded transfer. -/
def decodeUSDCLog (log : EthLog) : Option TransferEvent :=
  if !lowerEqStr log.address USDC_BASE_ADDRESS then none
  else log.decoded

/-- A transaction receipt as consumed by `verifyPayment`. -/
structure Receipt where
  status : String
  logs : List EthLog
  deriving DecidableEq, Repr

/-- Outcome of `client.getTransactionReceipt` (external network call):
a receipt, a receipt-not-found error, or an RPC/network error. -/
inductive FetchOutcome
  | ok (r : Receipt)
  | notFound
  | networkError
  deriving DecidableEq, Repr

/-- The test/placeholder-hash check:
`/^0x(1234567890abcdef|0000000000000000|ffffffffffffffff)/i.test(txHash) ||
 txHash === "0x1234…cdef"`. -/
def isTestHash (tx : String) : Bool :=
  ("0x1234567890abcdef".data.isPrefixOf (lowerStr tx) ||
   "0x0000000000000000".data.isPrefixOf (lowerStr tx) ||
   "0xffffffffffffffff".data.isPrefixOf (lowerStr tx)) ||
  tx == "0x1234567890abcdef1234567890abcdef1234567890abcdef1234567890abcdef"

/-- The canonical example value rejected up front. -/
def canonicalTestHash : String :=
  "0x1234567890abcdef1234567890abcdef1234567890abcdef1234567890abcdef"

/-- Error message for test/placeholder hashes. -/
def testHashMsg : String :=
  "Invalid transaction hash: This appears to be a test/placeholder hash. Please use a real transaction hash from Base Mainnet."

/-- Error message when no log qualifies. -/
def noQualifyingTransferMsg : String :=
  "No valid USDC transfer found to recipient address with sufficient amount"

/-- The log-scanning loop: the first log that decodes as a USDC transfer AND
whose destination equals the recipient (case-insensitive) AND whose amount is
at least the minimum is accepted; otherwise scanning continues. -/
def findValidTransfer (recipient : String) : List EthLog → Option TransferEvent
  | [] => none
  | log :: rest =>
    match decodeUSDCLog log with
    | some t =>
      if lowerEqStr t.toAddr recipient && decide (MIN_PAYMENT_AMOUNT ≤ t.value) then some t
      else findValidTransfer recipient rest
    | none => findValidTransfer recipient rest

/-- Function `verifyPayment(txHash, expectedRecipient)`.  The second component of the
result records whether the network (receipt fetch) was consulted. -/
def verifyPayment (tx recipient : String) (fetch : FetchOutcome) :
    VerifyOutcome × Bool :=
  if isTestHash tx then (.invalid testHashMsg, false)
  else
    match fetch with
    | .notFound =>
      (.invalid (jsConcat (jsConcat "Transaction receipt with hash \"" tx)
        "\" could not be found. The transaction may not be processed on a block yet, or the hash may be invalid. Please ensure the transaction has been confirmed on Base Mainnet."),
        true)
    | .networkError =>
      (.invalid "Failed to connect to Base Mainnet RPC. Please try again later.", true)
    | .ok r =>
      if r.status != "success" then (.invalid "Transaction failed or is pending", true)
      else if r.logs.isEmpty then (.invalid "Transaction contains no logs", true)
      else
        match findValidTransfer recipient r.logs with
        | some t => (.valid t.fromAddr, true)
        | none => (.invalid noQualifyingTransferMsg, true)

/-! ### Mock gate (`src/middleware/x402-mock.ts`), imported by the scan, cache,
calc, hash and badge entry points -/

/-- Result of the mock middleware: admit (call `next()`) or 402. -/
inductive MockResult
  | admitted
  | paymentRequired
  deriving DecidableEq, Repr

/-- The mock `x402`: `authHeader && authHeader.startsWith("0x") &&
authHeader.length === 66`.  It holds no store and calls no verifier; its
effect trace is empty by the program text, recorded here explicitly. -/
def x402Mock (header : Option String) : MockResult × List GateOp :=
  match header with
  | none => (.paymentRequired, [])
  | some h =>
    if h != "" && jsStartsWith h "0x" && jsLength h == 66 then (.admitted, [])
    else (.paymentRequired, [])

/-- Runs `n` successive requests through the mock gate with the same header: the
middleware keeps no state between calls, so each call is the same function. -/
def x402MockRunN (n : Nat) (header : Option String) : List MockResult :=
  List.replicate n (x402Mock header).1

/-! ### Witness signers (`src/tools/witness.ts`, `src/tools/witness-cache.ts`)

Only the private-key validation prefix of each signing function is relevant to
the claims; the key-derivation, hashing and ECDSA signing that follow are
external library calls (`privateKeyToAccount`, `keccak256`, `account.sign`).
We embed each function's validation as an `Except`: `.error` means the function
throws (a fatal `CRITICAL: BASIS_PRIVATE_KEY …` error) before signing. -/

/-- Is `c` one of `0-9 a-f A-F`? -/
def isHexChar (c : Char) : Bool :=
  (('0' ≤ c && c ≤ '9') || ('a' ≤ c && c ≤ 'f') || ('A' ≤ c && c ≤ 'F'))

/-- The regular expression `^0x[0-9a-fA-F]{64}$` (the `hexPattern` used by
`signContent` in `src/tools/witness.ts`, and the lexical shape the spec
requires of transaction identifiers and private keys). -/
def matchesHexKeyPattern (s : String) : Bool :=
  jsLength s == 66 && jsStartsWith s "0x" && (s.data.drop 2).all isHexChar

/-- Spec-side definition (§4.1, §8): the exact credential shape
`0x` + 64 hex characters.  Named separately so refinement claims can compare
the spec's regex against the code's weaker check. -/
def specTxIdShape (s : String) : Bool := matchesHexKeyPattern s

/-- Ways a signing function throws before signing. -/
inductive SignErr
  | missingKey
  | badLength (got : Nat)
  | badHex
  deriving DecidableEq, Repr

/-- Key normalization in `signContent`: prepend `0x` when missing. -/
def normalizeKey (k : String) : String :=
  if jsStartsWith k "0x" then k else jsConcat "0x" k

/-- Private-key validation of `signContent` (`src/tools/witness.ts`):
missing-key check (`!privateKey`, so the empty string also counts as missing),
`0x`-normalization, length-66 check, then the `^0x[0-9a-fA-F]{64}$` test.
Returns the normalized key actually passed to `privateKeyToAccount`. -/
def signContentKeyCheck (privateKey : Option String) : Except SignErr String :=
  match privateKey with
  | none => .error .missingKey
  | some k =>
    if k == "" then .error .missingKey
    else
      let nk := normalizeKey k
      if jsLength nk != 66 then .error (.badLength (jsLength nk))
      else if !matchesHexKeyPattern nk then .error .badHex
      else .ok nk

/-- Private-key validation of `signProofOfCustody` (and `signDataIntegrity`,
and the badge/calc/hash signers): only the `!privateKey` presence check; the
key is passed to `privateKeyToAccount` unvalidated. -/
def signProofOfCustodyKeyCheck (privateKey : Option String) : Except SignErr String :=
  match privateKey with
  | none => .error .missingKey
  | some k =>
    if k == "" then .error .missingKey
    else .ok k

/-! ### The gated endpoint pipeline (`POST /verify_url` in `src/index.ts`)

The route runs the production `x402` middleware first; only when it calls
`next()` does the handler run: perform the fetch, check `BASIS_PRIVATE_KEY`
presence, then call `signContent`, whose thrown key-format errors are caught by
the handler's `catch` and returned as a sanitized 500. -/

/-- Outcome of one request to `POST /verify_url`. -/
inductive ReqResult
  | gateRejected (g : GateResult)
  | fetchError
  | keyNotConfigured
  | internalError500
  | success
  deriving DecidableEq, Repr

/-- One full request to the gated endpoint.  `fetchSucceeds` abstracts the
out-of-scope `performFetch` action (status 200 with content). -/
def verifyUrlRequest (header : Option String) (env : GateEnv) (faults : KVFaults)
    (verify : String → String → VerifyOutcome) (privateKey : Option String)
    (fetchSucceeds : Bool) (store : KV) : ReqResult × KV × List GateOp :=
  let g := x402Run header env faults verify store
  match g.result with
  | .authorized _ _ =>
    if !fetchSucceeds then (.fetchError, g.store, g.trace)
    else
      match privateKey with
      | none => (.keyNotConfigured, g.store, g.trace)
      | some k =>
        if k == "" then (.keyNotConfigured, g.store, g.trace)
        else
          match signContentKeyCheck (some k) with
          | .error _ => (.internalError500, g.store, g.trace)
          | .ok _ => (.success, g.store, g.trace)
  | r => (.gateRejected r, g.store, g.trace)

/-- The format check the production gate actually performs on the header. -/
def passesFormatCheck (header : Option String) : Bool :=
  match header with
  | none => false
  | some h => jsStartsWith h "0x" && jsLength h == 66

/-! ### Store lemmas -/

theorem find_filter_ne (s : KV) (k k' : String) (h : k' ≠ k) :
    (s.filter (fun e => e.1 != k)).find? (fun e => e.1 == k') =
      s.find? (fun e => e.1 == k') := by
  induction s with
  | nil => rfl
  | cons e s ih =>
    rw [List.filter_cons]
    cases hek : (e.1 != k) with
    | true =>
      rw [if_pos rfl, List.find?_cons, List.find?_cons]
      cases hpe : (e.1 == k') <;> simp [ih]
    | false =>
      have he' : e.1 = k := by simpa [bne_iff_ne] using hek
      have h2 : (e.1 == k') = false := by
        simp only [beq_eq_false_iff_ne, ne_eq, he']
        exact fun hc => h hc.symm
      rw [if_neg (by simp), List.find?_cons]
      simp [h2, ih]

theorem kvGet_put_same (s : KV) (k v : String) (t : Nat) :
    kvGet (kvPut s k v t) k = some v := by
  simp [kvGet, kvPut, List.find?]

theorem kvGet_put_other (s : KV) (k v : String) (t : Nat) (k' : String) (h : k' ≠ k) :
    kvGet (kvPut s k v t) k' = kvGet s k' := by
  have hk : (k == k') = false := by
    simp only [beq_eq_false_iff_ne, ne_eq]
    exact fun hc => h hc.symm
  simp [kvGet, kvPut, List.find?, hk, find_filter_ne s k k' h]

theorem kvGet_delete_other (s : KV) (k k' : String) (h : k' ≠ k) :
    kvGet (kvDelete s k) k' = kvGet s k' := by
  simp [kvGet, kvDelete, find_filter_ne s k k' h]

theorem kvGetTTL_put_same (s : KV) (k v : String) (t : Nat) :
    kvGetTTL (kvPut s k v t) k = some t := by
  simp [kvGetTTL, kvPut, List.find?]

/-! ### Claim theorems -/

/-- C1: for every transaction identifier whose Replay Store record exists
(whatever its value — in particular "pending" or "used"), a gate invocation
presenting that identifier (well-formed header, configured environment,
non-throwing KV read) is rejected as ReplayDetected with HTTP 402 and error
"Payment Reuse Detected", the store is returned unchanged, and the effect
trace is exactly one read: no put and no delete is performed on the key. -/
theorem c1_replay_rejected (h : String) (env : GateEnv) (faults : KVFaults)
    (verify : String → String → VerifyOutcome) (store : KV) (v w : String)
    (hfmt : (jsStartsWith h "0x" && jsLength h == 66) = true)
    (hw : env.walletAddress = some w) (hkv : env.kvConfigured = true)
    (hget : faults.getFails = false)
    (hrec : kvGet store h = some v) :
    x402Run (some h) env faults verify store =
      ⟨.replayDetected, store, [.get h]⟩ ∧
    httpStatus GateResult.replayDetected = 402 ∧
    errorLabel GateResult.replayDetected = "Payment Reuse Detected" := by
  refine ⟨?_, rfl, rfl⟩
  simp [x402Run, hfmt, hw, hkv, hget, hrec]

theorem c1_replay_rejected_witness :
    x402Run (some "0xaaaaaaaaaaaaaaaaaaaaaaaaaaaaaaaaaaaaaaaaaaaaaaaaaaaaaaaaaaaaaaaa")
        ⟨some "0xFEEcafe", true⟩ noFaults (fun _ _ => .invalid "unused")
        [("0xaaaaaaaaaaaaaaaaaaaaaaaaaaaaaaaaaaaaaaaaaaaaaaaaaaaaaaaaaaaaaaaa", "used", 86400)] =
      ⟨.replayDetected,
        [("0xaaaaaaaaaaaaaaaaaaaaaaaaaaaaaaaaaaaaaaaaaaaaaaaaaaaaaaaaaaaaaaaa", "used", 86400)],
        [.get "0xaaaaaaaaaaaaaaaaaaaaaaaaaaaaaaaaaaaaaaaaaaaaaaaaaaaaaaaaaaaaaaaa"]⟩ ∧
    httpStatus GateResult.replayDetected = 402 ∧
    errorLabel GateResult.replayDetected = "Payment Reuse Detected" :=
  c1_replay_rejected _ _ noFaults _ _ "used" "0xFEEcafe"
    (by decide) rfl rfl rfl (by decide)

/-- C4: once a key's record holds "used", no gate execution (any header, any
environment, any fault pattern, any verifier) deletes or overwrites it: the
record still reads "used" afterwards, the trace contains no put and no delete
on that key, and any delete the gate performs at all happens only on the
verification-failure path (whose result is VerificationFailed, a path on which
no "used" write occurs).  Removal of a "used" record is therefore only possible
through the store's own TTL eviction (`kvExpire`), never through the gate. -/
theorem c4_used_persists (header : Option String) (env : GateEnv) (faults : KVFaults)
    (verify : String → String → VerifyOutcome) (store : KV) (k : String)
    (hused : kvGet store k = some "used") :
    kvGet (x402Run header env faults verify store).store k = some "used" ∧
    (∀ v t, GateOp.put k v t ∉ (x402Run header env faults verify store).trace) ∧
    GateOp.del k ∉ (x402Run header env faults verify store).trace ∧
    (∀ k', GateOp.del k' ∈ (x402Run header env faults verify store).trace →
      ∃ r, (x402Run header env faults verify store).result = .verificationFailed r) := by
  cases header with
  | none => simpa [x402Run] using hused
  | some h =>
    by_cases hk : h = k
    · subst hk
      simp only [x402Run]
      repeat' split
      all_goals simp_all
    · have hk' : k ≠ h := Ne.symm hk
      simp only [x402Run]
      repeat' split
      all_goals simp_all [kvGet_put_other, kvGet_delete_other]

theorem c4_used_persists_witness :
    kvGet (x402Run
        (some "0xbbbbbbbbbbbbbbbbbbbbbbbbbbbbbbbbbbbbbbbbbbbbbbbbbbbbbbbbbbbbbbbb")
        ⟨some "0xFEEcafe", true⟩ noFaults (fun _ _ => .invalid "no")
        [("0xbbbbbbbbbbbbbbbbbbbbbbbbbbbbbbbbbbbbbbbbbbbbbbbbbbbbbbbbbbbbbbbb", "used", 86400)]).store
      "0xbbbbbbbbbbbbbbbbbbbbbbbbbbbbbbbbbbbbbbbbbbbbbbbbbbbbbbbbbbbbbbbb" = some "used" ∧
    (∀ v t, GateOp.put "0xbbbbbbbbbbbbbbbbbbbbbbbbbbbbbbbbbbbbbbbbbbbbbbbbbbbbbbbbbbbbbbbb" v t ∉
      (x402Run (some "0xbbbbbbbbbbbbbbbbbbbbbbbbbbbbbbbbbbbbbbbbbbbbbbbbbbbbbbbbbbbbbbbb")
        ⟨some "0xFEEcafe", true⟩ noFaults (fun _ _ => .invalid "no")
        [("0xbbbbbbbbbbbbbbbbbbbbbbbbbbbbbbbbbbbbbbbbbbbbbbbbbbbbbbbbbbbbbbbb", "used", 86400)]).trace) ∧
    GateOp.del "0xbbbbbbbbbbbbbbbbbbbbbbbbbbbbbbbbbbbbbbbbbbbbbbbbbbbbbbbbbbbbbbbb" ∉
      (x402Run (some "0xbbbbbbbbbbbbbbbbbbbbbbbbbbbbbbbbbbbbbbbbbbbbbbbbbbbbbbbbbbbbbbbb")
        ⟨some "0xFEEcafe", true⟩ noFaults (fun _ _ => .invalid "no")
        [("0xbbbbbbbbbbbbbbbbbbbbbbbbbbbbbbbbbbbbbbbbbbbbbbbbbbbbbbbbbbbbbbbb", "used", 86400)]).trace ∧
    (∀ k', GateOp.del k' ∈
      (x402Run (some "0xbbbbbbbbbbbbbbbbbbbbbbbbbbbbbbbbbbbbbbbbbbbbbbbbbbbbbbbbbbbbbbbb")
        ⟨some "0xFEEcafe", true⟩ noFaults (fun _ _ => .invalid "no")
        [("0xbbbbbbbbbbbbbbbbbbbbbbbbbbbbbbbbbbbbbbbbbbbbbbbbbbbbbbbbbbbbbbbb", "used", 86400)]).trace →
      ∃ r, (x402Run (some "0xbbbbbbbbbbbbbbbbbbbbbbbbbbbbbbbbbbbbbbbbbbbbbbbbbbbbbbbbbbbbbbbb")
        ⟨some "0xFEEcafe", true⟩ noFaults (fun _ _ => .invalid "no")
        [("0xbbbbbbbbbbbbbbbbbbbbbbbbbbbbbbbbbbbbbbbbbbbbbbbbbbbbbbbbbbbbbbbb", "used", 86400)]).result =
          .verificationFailed r) :=
  c4_used_persists _ _ noFaults _ _ _ (by decide)

/-- C5: if the "used" write fails after the chain verifier reported the payment
valid, the gate rejects with InternalError (HTTP 500) and never reaches
`authorized` — the downstream handler is not invoked even though the payment
was valid. -/
theorem c5_fail_closed (h w wa : String) (env : GateEnv) (faults : KVFaults)
    (verify : String → String → VerifyOutcome) (store : KV)
    (hfmt : (jsStartsWith h "0x" && jsLength h == 66) = true)
    (hw : env.walletAddress = some w) (hkv : env.kvConfigured = true)
    (hget : faults.getFails = false) (hpend : faults.putPendingFails = false)
    (habs : kvGet store h = none)
    (hver : verify h w = .valid wa)
    (hfail : faults.putUsedFails = true) :
    (x402Run (some h) env faults verify store).result =
      .internalError "Payment verified but failed to record usage. Please contact support." ∧
    httpStatus (x402Run (some h) env faults verify store).result = 500 ∧
    ∀ w' tx, (x402Run (some h) env faults verify store).result ≠ .authorized w' tx := by
  simp [x402Run, hfmt, hw, hkv, hget, hpend, habs, hver, hfail, httpStatus]

theorem c5_fail_closed_witness :
    (x402Run (some "0xcccccccccccccccccccccccccccccccccccccccccccccccccccccccccccccccc")
        ⟨some "0xFEEcafe", true⟩ ⟨false, false, false, true⟩
        (fun _ _ => .valid "0xPayer") []).result =
      .internalError "Payment verified but failed to record usage. Please contact support." ∧
    httpStatus (x402Run (some "0xcccccccccccccccccccccccccccccccccccccccccccccccccccccccccccccccc")
        ⟨some "0xFEEcafe", true⟩ ⟨false, false, false, true⟩
        (fun _ _ => .valid "0xPayer") []).result = 500 ∧
    ∀ w' tx, (x402Run (some "0xcccccccccccccccccccccccccccccccccccccccccccccccccccccccccccccccc")
        ⟨some "0xFEEcafe", true⟩ ⟨false, false, false, true⟩
        (fun _ _ => .valid "0xPayer") []).result ≠ .authorized w' tx :=
  c5_fail_closed _ "0xFEEcafe" "0xPayer" _ _ _ _
    (by decide) rfl rfl rfl rfl (by decide) rfl rfl

/-- C6: for a well-formed, previously-absent identifier (configured
environment, fault-free store), the gate writes "pending" with the 300-second
TTL, then calls the chain verifier, and on a valid verification overwrites the
record to "used" with the 86400-second TTL and admits the request; the effect
trace shows the pending write strictly before the verifier call. -/
theorem c6_pending_then_used (h w wa : String) (env : GateEnv)
    (verify : String → String → VerifyOutcome) (store : KV)
    (hfmt : (jsStartsWith h "0x" && jsLength h == 66) = true)
    (hw : env.walletAddress = some w) (hkv : env.kvConfigured = true)
    (habs : kvGet store h = none)
    (hver : verify h w = .valid wa) :
    x402Run (some h) env noFaults verify store =
      ⟨.authorized wa h, kvPut (kvPut store h "pending" PENDING_TTL) h "used" REPLAY_TTL,
        [.get h, .put h "pending" PENDING_TTL, .verifyCall h w, .put h "used" REPLAY_TTL]⟩ ∧
    kvGet (x402Run (some h) env noFaults verify store).store h = some "used" ∧
    kvGetTTL (x402Run (some h) env noFaults verify store).store h = some REPLAY_TTL ∧
    PENDING_TTL = 300 ∧ REPLAY_TTL = 86400 := by
  have hrun : x402Run (some h) env noFaults verify store =
      ⟨.authorized wa h, kvPut (kvPut store h "pending" PENDING_TTL) h "used" REPLAY_TTL,
        [.get h, .put h "pending" PENDING_TTL, .verifyCall h w, .put h "used" REPLAY_TTL]⟩ := by
    simp [x402Run, hfmt, hw, hkv, noFaults, habs, hver]
  refine ⟨hrun, ?_, ?_, rfl, rfl⟩
  · rw [hrun]; exact kvGet_put_same _ _ _ _
  · rw [hrun]; exact kvGetTTL_put_same _ _ _ _

theorem c6_pending_then_used_witness :
    x402Run (some "0xdddddddddddddddddddddddddddddddddddddddddddddddddddddddddddddddd")
        ⟨some "0xFEEcafe", true⟩ noFaults (fun _ _ => .valid "0xPayer") [] =
      ⟨.authorized "0xPayer" "0xdddddddddddddddddddddddddddddddddddddddddddddddddddddddddddddddd",
        kvPut (kvPut [] "0xdddddddddddddddddddddddddddddddddddddddddddddddddddddddddddddddd"
            "pending" PENDING_TTL)
          "0xdddddddddddddddddddddddddddddddddddddddddddddddddddddddddddddddd" "used" REPLAY_TTL,
        [.get "0xdddddddddddddddddddddddddddddddddddddddddddddddddddddddddddddddd",
          .put "0xdddddddddddddddddddddddddddddddddddddddddddddddddddddddddddddddd" "pending" PENDING_TTL,
          .verifyCall "0xdddddddddddddddddddddddddddddddddddddddddddddddddddddddddddddddd" "0xFEEcafe",
          .put "0xdddddddddddddddddddddddddddddddddddddddddddddddddddddddddddddddd" "used" REPLAY_TTL]⟩ ∧
    kvGet (x402Run (some "0xdddddddddddddddddddddddddddddddddddddddddddddddddddddddddddddddd")
        ⟨some "0xFEEcafe", true⟩ noFaults (fun _ _ => .valid "0xPayer") []).store
      "0xdddddddddddddddddddddddddddddddddddddddddddddddddddddddddddddddd" = some "used" ∧
    kvGetTTL (x402Run (some "0xdddddddddddddddddddddddddddddddddddddddddddddddddddddddddddddddd")
        ⟨some "0xFEEcafe", true⟩ noFaults (fun _ _ => .valid "0xPayer") []).store
      "0xdddddddddddddddddddddddddddddddddddddddddddddddddddddddddddddddd" = some REPLAY_TTL ∧
    PENDING_TTL = 300 ∧ REPLAY_TTL = 86400 :=
  c6_pending_then_used _ "0xFEEcafe" "0xPayer" _ _ _ (by decide) rfl rfl rfl rfl

/-- C3 counterexample: the header "0x" followed by 64 'z' characters does not
match the spec's `^0x[0-9a-fA-F]\x7b64\x7d$` shape, yet the production gate does
NOT return PaymentRequired for it: it reads the Replay Store (a `get` appears
in the trace), writes the pending lock, and calls the chain verifier.  The
claim that every non-matching string is rejected without store or verifier
access is therefore false on the code. -/
theorem c3_counterexample :
    specTxIdShape "0xzzzzzzzzzzzzzzzzzzzzzzzzzzzzzzzzzzzzzzzzzzzzzzzzzzzzzzzzzzzzzzzz" = false ∧
    (x402Run (some "0xzzzzzzzzzzzzzzzzzzzzzzzzzzzzzzzzzzzzzzzzzzzzzzzzzzzzzzzzzzzzzzzz")
        ⟨some "0xFEEcafe", true⟩ noFaults (fun _ _ => .invalid "no") []).result ≠
      .paymentRequired ∧
    GateOp.get "0xzzzzzzzzzzzzzzzzzzzzzzzzzzzzzzzzzzzzzzzzzzzzzzzzzzzzzzzzzzzzzzzz" ∈
      (x402Run (some "0xzzzzzzzzzzzzzzzzzzzzzzzzzzzzzzzzzzzzzzzzzzzzzzzzzzzzzzzzzzzzzzzz")
        ⟨some "0xFEEcafe", true⟩ noFaults (fun _ _ => .invalid "no") []).trace ∧
    GateOp.verifyCall "0xzzzzzzzzzzzzzzzzzzzzzzzzzzzzzzzzzzzzzzzzzzzzzzzzzzzzzzzzzzzzzzzz"
        "0xFEEcafe" ∈
      (x402Run (some "0xzzzzzzzzzzzzzzzzzzzzzzzzzzzzzzzzzzzzzzzzzzzzzzzzzzzzzzzzzzzzzzzz")
        ⟨some "0xFEEcafe", true⟩ noFaults (fun _ _ => .invalid "no") []).trace := by
  decide

/-- C3 (amended): the production gate's format check is only "starts with 0x
and has length 66".  Every header failing THAT check (absent, wrong prefix, or
wrong length) is rejected as PaymentRequired (HTTP 402) with no Replay Store
access and no chain-verifier call; and every string of the spec's regex shape
does pass the code's check (the code's rejection set is strictly smaller:
length-66 `0x` strings with non-hex tail slip through, see the
counterexample). -/
theorem c3_format_gate (header : Option String) (env : GateEnv) (faults : KVFaults)
    (verify : String → String → VerifyOutcome) (store : KV)
    (hbad : passesFormatCheck header = false) :
    x402Run header env faults verify store = ⟨.paymentRequired, store, []⟩ ∧
    httpStatus GateResult.paymentRequired = 402 ∧
    (∀ s, specTxIdShape s = true → passesFormatCheck (some s) = true) := by
  refine ⟨?_, rfl, ?_⟩
  · cases header with
    | none => simp [x402Run]
    | some h =>
      simp only [passesFormatCheck] at hbad
      simp [x402Run, hbad]
  · intro s hs
    simp only [specTxIdShape, matchesHexKeyPattern, Bool.and_eq_true] at hs
    simp [passesFormatCheck, hs.1.1, hs.1.2]

theorem c3_format_gate_witness :
    x402Run (some "0xtooShort") ⟨some "0xFEEcafe", true⟩ noFaults
        (fun _ _ => .invalid "no") [] =
      ⟨.paymentRequired, [], []⟩ ∧
    httpStatus GateResult.paymentRequired = 402 ∧
    (∀ s, specTxIdShape s = true → passesFormatCheck (some s) = true) :=
  c3_format_gate _ _ noFaults _ _ (by decide)

/-- C2: the mock payment gate (imported by the scan, cache, calc, hash and
badge entry points) admits a request exactly when the Authorization header
starts with "0x" and has length 66; it performs no Replay Store access and no
chain verification (its effect trace is empty), and — holding no state — it
admits the same identifier on every one of `n` successive requests, for
every `n`.  Nothing checks the 64 trailing characters for being hexadecimal
(the witness passes a header of 64 'z's). -/
theorem c2_mock_gate (s : String) :
    ((x402Mock (some s)).1 = MockResult.admitted ↔
      (jsStartsWith s "0x" && jsLength s == 66) = true) ∧
    (x402Mock (some s)).2 = [] ∧
    ((jsStartsWith s "0x" && jsLength s == 66) = true →
      ∀ n, x402MockRunN n (some s) = List.replicate n MockResult.admitted) := by
  by_cases hb : (jsStartsWith s "0x" && jsLength s == 66) = true
  · have hparts := hb
    simp only [Bool.and_eq_true] at hparts
    obtain ⟨hsw, hlen⟩ := hparts
    have hne : (s != "") = true := by
      have hs' : s ≠ "" := by
        intro hcontra
        subst hcontra
        exact absurd hsw (by decide)
      simp [bne_iff_ne, hs']
    have hC : (s != "" && jsStartsWith s "0x" && jsLength s == 66) = true := by
      rw [hne, hsw, hlen]
      rfl
    have hx : x402Mock (some s) = (MockResult.admitted, []) := by
      unfold x402Mock
      exact if_pos hC
    exact ⟨by simp [hx, hb], by simp [hx], fun _ n => by simp [x402MockRunN, hx]⟩
  · have hb' : (jsStartsWith s "0x" && jsLength s == 66) = false :=
      eq_false_of_ne_true hb
    have hC : ¬((s != "" && jsStartsWith s "0x" && jsLength s == 66) = true) := by
      simp only [Bool.and_eq_true]
      rintro ⟨⟨-, hsw⟩, hlen⟩
      rw [hsw, hlen] at hb'
      exact absurd hb' (by decide)
    have hx : x402Mock (some s) = (MockResult.paymentRequired, []) := by
      unfold x402Mock
      exact if_neg hC
    exact ⟨by simp [hx, hb'], by simp [hx], fun hcontra => absurd hcontra hb⟩

theorem c2_mock_gate_witness :
    (x402Mock (some "0xzzzzzzzzzzzzzzzzzzzzzzzzzzzzzzzzzzzzzzzzzzzzzzzzzzzzzzzzzzzzzzzz")).1 =
      MockResult.admitted ∧
    (x402Mock (some "0xzzzzzzzzzzzzzzzzzzzzzzzzzzzzzzzzzzzzzzzzzzzzzzzzzzzzzzzzzzzzzzzz")).2 = [] ∧
    x402MockRunN 3 (some "0xzzzzzzzzzzzzzzzzzzzzzzzzzzzzzzzzzzzzzzzzzzzzzzzzzzzzzzzzzzzzzzzz") =
      [MockResult.admitted, MockResult.admitted, MockResult.admitted] := by
  have h := c2_mock_gate "0xzzzzzzzzzzzzzzzzzzzzzzzzzzzzzzzzzzzzzzzzzzzzzzzzzzzzzzzzzzzzzzzz"
  exact ⟨h.1.mpr (by decide), h.2.1, by
    have h3 := h.2.2 (by decide) 3
    simpa using h3⟩

/-- C7 counterexample: the claim quantifies over receipts "whose FIRST
decodable token-transfer log to the configured recipient carries exactly 999
units" and asserts verification returns Invalid — but the scan does not stop
at the first decodable transfer to the recipient, only at the first QUALIFYING
one.  Concretely: a successful receipt whose first log decodes as a
999-unit USDC transfer to the recipient, followed by a second log carrying a
1000-unit transfer, verifies as Valid (with the second transfer's source as
payer), not Invalid. -/
theorem c7_counterexample :
    decodeUSDCLog
        ⟨"0x833589fcd6edb6e08f4c7c32d4f71b54bda02913", some ⟨"0xPayerA", "0xabcd", 999⟩⟩ =
      some ⟨"0xPayerA", "0xabcd", 999⟩ ∧
    lowerEqStr "0xabcd" "0xAbCd" = true ∧
    (verifyPayment "0xeeeeeeeeeeeeeeeeeeeeeeeeeeeeeeeeeeeeeeeeeeeeeeeeeeeeeeeeeeeeeeee"
        "0xAbCd"
        (.ok ⟨"success",
          [⟨"0x833589fcd6edb6e08f4c7c32d4f71b54bda02913", some ⟨"0xPayerA", "0xabcd", 999⟩⟩,
            ⟨"0x833589fcd6edb6e08f4c7c32d4f71b54bda02913", some ⟨"0xPayerB", "0xabcd", 1000⟩⟩]⟩)).1 =
      .valid "0xPayerB" := by
  refine ⟨by decide, by decide, by decide⟩

/-- C7 (amended): for a successful receipt whose SINGLE log decodes as a USDC
transfer to the configured recipient (case-insensitive address comparison),
verification returns Valid exactly when the amount is ≥ MIN_PAYMENT_AMOUNT =
1000; with exactly 999 units it returns Invalid ("no qualifying transfer"),
with exactly 1000 it returns Valid carrying the payer taken from the
transfer's source (`from`) field.  In general the accepted log is the first
one satisfying ALL conditions (decodes, recipient matches, amount ≥ 1000), as
the counterexample shows. -/
theorem c7_min_amount_boundary (tx recipient : String) (log : EthLog) (t : TransferEvent)
    (htest : isTestHash tx = false)
    (hdec : decodeUSDCLog log = some t)
    (hto : lowerEqStr t.toAddr recipient = true) :
    ((verifyPayment tx recipient (.ok ⟨"success", [log]⟩)).1 = .valid t.fromAddr ↔
      MIN_PAYMENT_AMOUNT ≤ t.value) ∧
    (t.value = 999 →
      (verifyPayment tx recipient (.ok ⟨"success", [log]⟩)).1 =
        .invalid noQualifyingTransferMsg) ∧
    (t.value = 1000 →
      (verifyPayment tx recipient (.ok ⟨"success", [log]⟩)).1 = .valid t.fromAddr) := by
  have hstat : (("success" : String) != "success") = false := by decide
  by_cases hv : MIN_PAYMENT_AMOUNT ≤ t.value
  · have hrun : (verifyPayment tx recipient (.ok ⟨"success", [log]⟩)).1 = .valid t.fromAddr := by
      simp [verifyPayment, htest, hstat, findValidTransfer, hdec, hto, hv]
    rw [hrun]
    refine ⟨⟨fun _ => hv, fun _ => rfl⟩, ?_, fun _ => rfl⟩
    intro h999
    rw [h999] at hv
    exact absurd hv (by decide)
  · have hrun : (verifyPayment tx recipient (.ok ⟨"success", [log]⟩)).1 =
        .invalid noQualifyingTransferMsg := by
      simp [verifyPayment, htest, hstat, findValidTransfer, hdec, hto, hv]
    rw [hrun]
    refine ⟨⟨fun hcontra => VerifyOutcome.noConfusion hcontra, fun hc => absurd hc hv⟩,
      fun _ => rfl, ?_⟩
    intro h1000
    rw [h1000] at hv
    exact absurd (by decide) hv

theorem c7_min_amount_boundary_witness :
    (verifyPayment "0xeeeeeeeeeeeeeeeeeeeeeeeeeeeeeeeeeeeeeeeeeeeeeeeeeeeeeeeeeeeeeeee"
        "0xAbCd"
        (.ok ⟨"success",
          [⟨"0x833589fcd6edb6e08f4c7c32d4f71b54bda02913", some ⟨"0xPayer", "0xabcd", 999⟩⟩]⟩)).1 =
      .invalid noQualifyingTransferMsg ∧
    (verifyPayment "0xeeeeeeeeeeeeeeeeeeeeeeeeeeeeeeeeeeeeeeeeeeeeeeeeeeeeeeeeeeeeeeee"
        "0xAbCd"
        (.ok ⟨"success",
          [⟨"0x833589fcd6edb6e08f4c7c32d4f71b54bda02913", some ⟨"0xPayer", "0xabcd", 1000⟩⟩]⟩)).1 =
      .valid "0xPayer" :=
  ⟨(c7_min_amount_boundary _ _ _ ⟨"0xPayer", "0xabcd", 999⟩
      (by decide) (by decide) (by decide)).2.1 rfl,
    (c7_min_amount_boundary _ _ _ ⟨"0xPayer", "0xabcd", 1000⟩
      (by decide) (by decide) (by decide)).2.2 rfl⟩

/-- C10: for the literal documentation-example transaction identifier, the
chain verifier returns Invalid with the placeholder-hash message, and the
network flag is false for every possible ledger response — no ledger query is
consulted. -/
theorem c10_test_hash_rejected (recipient : String) (fetch : FetchOutcome) :
    verifyPayment canonicalTestHash recipient fetch =
      (.invalid testHashMsg, false) := by
  have h : isTestHash canonicalTestHash = true := by decide
  simp [verifyPayment, h]

/-- C8 counterexample: the claim "signing fails with ConfigurationError
whenever the private key is not exactly a 66-character 0x-prefixed hex string,
for every operation-kind signing function" is false on the code, twice over:
(1) `signContent` silently normalizes a bare 64-hex-character key by prepending
"0x" and then accepts it, although the supplied key is not a 66-character
0x-prefixed string; (2) `signProofOfCustody` (like the badge/calc/hash
signers) checks only key presence and accepts a present but malformed key
without any fatal error. -/
theorem c8_counterexample :
    matchesHexKeyPattern
      "aaaaaaaaaaaaaaaaaaaaaaaaaaaaaaaaaaaaaaaaaaaaaaaaaaaaaaaaaaaaaaaa" = false ∧
    signContentKeyCheck
        (some "aaaaaaaaaaaaaaaaaaaaaaaaaaaaaaaaaaaaaaaaaaaaaaaaaaaaaaaaaaaaaaaa") =
      .ok "0xaaaaaaaaaaaaaaaaaaaaaaaaaaaaaaaaaaaaaaaaaaaaaaaaaaaaaaaaaaaaaaaa" ∧
    matchesHexKeyPattern "not-a-valid-key" = false ∧
    signProofOfCustodyKeyCheck (some "not-a-valid-key") = .ok "not-a-valid-key" := by
  refine ⟨by decide, ?_, by decide, ?_⟩ <;> rfl

/-- C8 (amended): the absent-key check is universal: every signing function
throws when the key is absent or empty.  The full lexical validation exists
only in `signContent`: for a present nonempty key it throws exactly when the
0x-NORMALIZED key (the key with "0x" prepended if missing) fails the
`^0x[0-9a-fA-F]\x7b64\x7d$` pattern — so a bare 64-hex key is accepted.  The
cache (and badge/calc/hash) signing functions perform no format validation at
all: every present nonempty key is passed through to key derivation. -/
theorem c8_key_validation (k : String) (hk : k ≠ "") :
    ((∃ e, signContentKeyCheck (some k) = .error e) ↔
      matchesHexKeyPattern (normalizeKey k) = false) ∧
    signProofOfCustodyKeyCheck (some k) = .ok k ∧
    signContentKeyCheck none = .error .missingKey ∧
    signProofOfCustodyKeyCheck none = .error .missingKey := by
  have hkne : (k == "") = false := by
    simp [hk]
  refine ⟨?_, by simp [signProofOfCustodyKeyCheck, hkne], rfl, rfl⟩
  by_cases hpat : matchesHexKeyPattern (normalizeKey k) = true
  · have hlen : (jsLength (normalizeKey k) != 66) = false := by
      have := hpat
      simp only [matchesHexKeyPattern, Bool.and_eq_true] at this
      have h66 : jsLength (normalizeKey k) = 66 := by simpa using this.1.1
      simp [h66]
    have hok : signContentKeyCheck (some k) = .ok (normalizeKey k) := by
      simp [signContentKeyCheck, hkne, hlen, hpat]
    rw [hok]
    simp [hpat]
  · have hpat' : matchesHexKeyPattern (normalizeKey k) = false :=
      eq_false_of_ne_true hpat
    constructor
    · intro _
      exact hpat'
    · intro _
      by_cases hlen : (jsLength (normalizeKey k) != 66) = true
      · exact ⟨.badLength (jsLength (normalizeKey k)), by
          simp [signContentKeyCheck, hkne, hlen]⟩
      · have hlen' : (jsLength (normalizeKey k) != 66) = false :=
          eq_false_of_ne_true hlen
        exact ⟨.badHex, by simp [signContentKeyCheck, hkne, hlen', hpat']⟩

theorem c8_key_validation_witness :
    ((∃ e, signContentKeyCheck (some "0xqqqq") = .error e) ↔
      matchesHexKeyPattern (normalizeKey "0xqqqq") = false) ∧
    signProofOfCustodyKeyCheck (some "0xqqqq") = .ok "0xqqqq" ∧
    signContentKeyCheck none = .error .missingKey ∧
    signProofOfCustodyKeyCheck none = .error .missingKey :=
  c8_key_validation "0xqqqq" (by decide)

/-- A gate execution that returns `authorized w tx` necessarily presented
`tx` as its header and left the store with the two writes
pending-then-used applied to `tx`. -/
theorem authorized_store (header : Option String) (env : GateEnv) (faults : KVFaults)
    (verify : String → String → VerifyOutcome) (store : KV) (w tx : String)
    (hauth : (x402Run header env faults verify store).result = .authorized w tx) :
    header = some tx ∧
    (x402Run header env faults verify store).store =
      kvPut (kvPut store tx "pending" PENDING_TTL) tx "used" REPLAY_TTL := by
  cases header with
  | none => simp [x402Run] at hauth
  | some h =>
    simp only [x402Run] at hauth ⊢
    repeat' split at hauth
    all_goals simp_all

/-- C9 counterexample: with a well-formed, unused identifier, a verifier that
accepts the payment, and a private key of bad format ("0x" + 64 'z's), the
request fails at the signing step (HTTP 500), yet the Replay Store is NOT in
the state an up-front rejection would have left: the identifier's record has
been created and set to "used" (it was absent before the request). So a
signing failure due to bad key format IS raised after a state mutation, and
does leave a record for the request's transaction identifier. -/
theorem c9_counterexample :
    (verifyUrlRequest
        (some "0x9999999999999999999999999999999999999999999999999999999999999999")
        ⟨some "0xFEEcafe", true⟩ noFaults (fun _ _ => .valid "0xPayer")
        (some "0xzzzzzzzzzzzzzzzzzzzzzzzzzzzzzzzzzzzzzzzzzzzzzzzzzzzzzzzzzzzzzzzz")
        true []).1 = ReqResult.internalError500 ∧
    kvGet (verifyUrlRequest
        (some "0x9999999999999999999999999999999999999999999999999999999999999999")
        ⟨some "0xFEEcafe", true⟩ noFaults (fun _ _ => .valid "0xPayer")
        (some "0xzzzzzzzzzzzzzzzzzzzzzzzzzzzzzzzzzzzzzzzzzzzzzzzzzzzzzzzzzzzzzzzz")
        true []).2.1
      "0x9999999999999999999999999999999999999999999999999999999999999999" =
      some "used" ∧
    kvGet ([] : KV)
      "0x9999999999999999999999999999999999999999999999999999999999999999" = none := by
  refine ⟨rfl, rfl, rfl⟩

/-- C9 (amended): a signing failure from a bad private-key format performs no
Replay Store access of its own — the request's final store and effect trace
are exactly those left by the payment gate — but it is raised AFTER the gate's
state mutations: on every such request the gate has already recorded the
transaction identifier as "used", so the store differs from the state an
up-front rejection (which performs no store access at all) would have left. -/
theorem c9_signing_failure_after_gate (header : Option String) (env : GateEnv)
    (faults : KVFaults) (verify : String → String → VerifyOutcome)
    (k : String) (store : KV) (w tx : String)
    (hk : k ≠ "")
    (hsign : ∃ e, signContentKeyCheck (some k) = .error e)
    (hauth : (x402Run header env faults verify store).result = .authorized w tx) :
    (verifyUrlRequest header env faults verify (some k) true store).1 =
      ReqResult.internalError500 ∧
    (verifyUrlRequest header env faults verify (some k) true store).2.1 =
      (x402Run header env faults verify store).store ∧
    (verifyUrlRequest header env faults verify (some k) true store).2.2 =
      (x402Run header env faults verify store).trace ∧
    kvGet (verifyUrlRequest header env faults verify (some k) true store).2.1 tx =
      some "used" := by
  obtain ⟨e, he⟩ := hsign
  obtain ⟨hhdr, hstore⟩ := authorized_store header env faults verify store w tx hauth
  have hkne : (k == "") = false := by simp [hk]
  have hrun : verifyUrlRequest header env faults verify (some k) true store =
      (ReqResult.internalError500, (x402Run header env faults verify store).store,
        (x402Run header env faults verify store).trace) := by
    simp [verifyUrlRequest, hauth, hkne, he]
  refine ⟨by rw [hrun], by rw [hrun], by rw [hrun], ?_⟩
  rw [hrun]
  simp only [hstore]
  exact kvGet_put_same _ _ _ _

theorem c9_signing_failure_after_gate_witness :
    (verifyUrlRequest
        (some "0x7777777777777777777777777777777777777777777777777777777777777777")
        ⟨some "0xFEEcafe", true⟩ noFaults (fun _ _ => .valid "0xPayer")
        (some "0xzzzzzzzzzzzzzzzzzzzzzzzzzzzzzzzzzzzzzzzzzzzzzzzzzzzzzzzzzzzzzzzz")
        true []).1 = ReqResult.internalError500 ∧
    (verifyUrlRequest
        (some "0x7777777777777777777777777777777777777777777777777777777777777777")
        ⟨some "0xFEEcafe", true⟩ noFaults (fun _ _ => .valid "0xPayer")
        (some "0xzzzzzzzzzzzzzzzzzzzzzzzzzzzzzzzzzzzzzzzzzzzzzzzzzzzzzzzzzzzzzzzz")
        true []).2.1 =
      (x402Run (some "0x7777777777777777777777777777777777777777777777777777777777777777")
        ⟨some "0xFEEcafe", true⟩ noFaults (fun _ _ => .valid "0xPayer") []).store ∧
    (verifyUrlRequest
        (some "0x7777777777777777777777777777777777777777777777777777777777777777")
        ⟨some "0xFEEcafe", true⟩ noFaults (fun _ _ => .valid "0xPayer")
        (some "0xzzzzzzzzzzzzzzzzzzzzzzzzzzzzzzzzzzzzzzzzzzzzzzzzzzzzzzzzzzzzzzzz")
        true []).2.2 =
      (x402Run (some "0x7777777777777777777777777777777777777777777777777777777777777777")
        ⟨some "0xFEEcafe", true⟩ noFaults (fun _ _ => .valid "0xPayer") []).trace ∧
    kvGet (verifyUrlRequest
        (some "0x7777777777777777777777777777777777777777777777777777777777777777")
        ⟨some "0xFEEcafe", true⟩ noFaults (fun _ _ => .valid "0xPayer")
        (some "0xzzzzzzzzzzzzzzzzzzzzzzzzzzzzzzzzzzzzzzzzzzzzzzzzzzzzzzzzzzzzzzzz")
        true []).2.1
      "0x7777777777777777777777777777777777777777777777777777777777777777" =
      some "used" :=
  c9_signing_failure_after_gate _ _ noFaults _ _ _ "0xPayer" _
    (by decide) ⟨.badHex, by rfl⟩ rfl

end Basis
